import Mathlib

/-!
Shallow embedding of the library-management example
(`src/EJEMPLO 1/Sistemagestionbliblioteca.py`) and of the product class of the
online-shop example (`src/EJEMPLO 2/Sistemadetiendaonline.py`).

Modelling conventions:
* `datetime` values are whole time-units (days) represented as `Int`;
  every call to `datetime.now()` becomes an explicit `now : Int` argument.
* Monetary amounts (Python `float`) are represented as `ℚ`; the source only
  manipulates sums and differences of multiples of 0.50 and 1.00, which are
  exact in both representations.
* Python object identity of a book inside a user's `_libros_prestados` list
  is represented by the book's ISBN, and the back-reference
  `_usuario_actual` by the user's `identificacion`, following the source's
  use of ISBN as the unique book key in the loan history.
* In-place mutation becomes explicit state passing: a method that mutates
  `self` returns the updated structure next to its Python return value.
* The abstract classes `Libro` and `Usuario` with their subclasses become
  single structures carrying a closed variant field; the abstract methods
  overridden per subclass become matches on that variant.
-/

/-- Variant payload of a book: `LibroFisico` (lines 188-292) or
`LibroDigital` (lines 294-414) of the source. -/
inductive LibroVariante where
  | fisico (ubicacion : String) (estadoFisico : String) (numeroPaginas : Int)
  | digital (formato : String) (tamanoMb : ℚ) (urlDescarga : String) (descargas : Nat)
deriving DecidableEq

/-- The abstract class `Libro` (source lines 9-182): common private
attributes set by `Libro.__init__` plus the subclass-specific payload. -/
structure Libro where
  titulo : String
  autor : String
  isbn : String
  anioPublicacion : Int
  disponible : Bool
  fechaPrestamo : Option Int
  usuarioActual : Option String
  variante : LibroVariante
deriving DecidableEq

/-- Abstract method `calcular_dias_prestamo`: 14 for `LibroFisico`
(line 235), 7 for `LibroDigital` (line 348). -/
def Libro.calcular_dias_prestamo (l : Libro) : Int :=
  match l.variante with
  | .fisico _ _ _ => 14
  | .digital _ _ _ _ => 7

/-- Abstract method `obtener_tipo` (lines 244 and 357). -/
def Libro.obtener_tipo (l : Libro) : String :=
  match l.variante with
  | .fisico _ _ _ => "Libro Físico"
  | .digital _ _ _ _ => "Libro Digital"

/-- Constructor `LibroFisico.__init__` (line 201): the base constructor sets
`disponible = True`, `fecha_prestamo = None`, `usuario_actual = None`. -/
def LibroFisico.init (titulo autor isbn : String) (anioPublicacion : Int)
    (ubicacion estadoFisico : String) (numeroPaginas : Int) : Libro :=
  { titulo := titulo, autor := autor, isbn := isbn, anioPublicacion := anioPublicacion,
    disponible := true, fechaPrestamo := none, usuarioActual := none,
    variante := .fisico ubicacion estadoFisico numeroPaginas }

/-- Constructor `LibroDigital.__init__` (line 308); `_descargas` starts at 0
and the format is upper-cased by the source, kept abstract here. -/
def LibroDigital.init (titulo autor isbn : String) (anioPublicacion : Int)
    (formato : String) (tamanoMb : ℚ) (urlDescarga : String) : Libro :=
  { titulo := titulo, autor := autor, isbn := isbn, anioPublicacion := anioPublicacion,
    disponible := true, fechaPrestamo := none, usuarioActual := none,
    variante := .digital formato tamanoMb urlDescarga 0 }

/-- Method `Libro.prestar` (lines 113-131): succeeds iff available; on
success records `now` and the borrower and flips availability. -/
def Libro.prestar (l : Libro) (usuario : String) (now : Int) : Bool × Libro :=
  if l.disponible then
    (true, { l with disponible := false, fechaPrestamo := some now,
                    usuarioActual := some usuario })
  else
    (false, l)

/-- Method `Libro.devolver` (lines 133-161): when on loan computes
`dias_retraso = max(0, dias_prestado - dias_limite)`, clears the loan state
and returns the late days with the previous holder; otherwise `(0, None)`.
The source evaluates `(datetime.now() - self._fecha_prestamo).days`, which
presupposes `_fecha_prestamo` is set whenever the book is on loan; `getD 0`
renders that partial read total (the invariant theorem for the book state
shows the default is never consulted on reachable states). -/
def Libro.devolver (l : Libro) (now : Int) : (Int × Option String) × Libro :=
  if !l.disponible then
    let diasPrestado := now - l.fechaPrestamo.getD 0
    let diasLimite := l.calcular_dias_prestamo
    let diasRetraso := max 0 (diasPrestado - diasLimite)
    let usuarioDevolvio := l.usuarioActual
    ((diasRetraso, usuarioDevolvio),
      { l with disponible := true, fechaPrestamo := none, usuarioActual := none })
  else
    ((0, none), l)

/-- Variant payload of a user: `Estudiante` (lines 642-724) or `Profesor`
(lines 726-818) of the source. -/
inductive UsuarioVariante where
  | estudiante (carrera : String) (semestre : Int)
  | profesor (departamento : String) (tituloAcademico : String)
deriving DecidableEq

/-- One entry of `_historial_prestamos`: the dict built at lines 550-556;
the keys `fecha_devolucion` and `dias_retraso` only exist after the return
closes the record (lines 582-584), hence `Option`. -/
structure PrestamoRegistro where
  libroTitulo : String
  libroIsbn : String
  fechaPrestamo : Int
  tipoLibro : String
  devuelto : Bool
  fechaDevolucion : Option Int
  diasRetraso : Option Int
deriving DecidableEq

/-- The abstract class `Usuario` (source lines 420-640). -/
structure Usuario where
  nombre : String
  identificacion : String
  email : String
  fechaRegistro : Int
  librosPrestados : List String
  historialPrestamos : List PrestamoRegistro
  multaAcumulada : ℚ
  variante : UsuarioVariante
deriving DecidableEq

/-- Abstract method `limite_prestamos`: 3 for `Estudiante` (line 682),
10 for `Profesor` (line 767). -/
def Usuario.limite_prestamos (u : Usuario) : Nat :=
  match u.variante with
  | .estudiante _ _ => 3
  | .profesor _ _ => 10

/-- Abstract method `calcular_multa_por_dia`: 0.50 for `Estudiante`
(line 691), 1.00 for `Profesor` (line 776). -/
def Usuario.calcular_multa_por_dia (u : Usuario) : ℚ :=
  match u.variante with
  | .estudiante _ _ => 1 / 2
  | .profesor _ _ => 1

/-- Abstract method `obtener_tipo_usuario` (lines 700 and 785). -/
def Usuario.obtener_tipo_usuario (u : Usuario) : String :=
  match u.variante with
  | .estudiante _ _ => "Estudiante"
  | .profesor _ _ => "Profesor"

/-- Constructor `Estudiante.__init__` (line 654): the base constructor sets
empty held list, empty history and zero fine. -/
def Estudiante.init (nombre identificacion email : String) (now : Int)
    (carrera : String) (semestre : Int) : Usuario :=
  { nombre := nombre, identificacion := identificacion, email := email,
    fechaRegistro := now, librosPrestados := [], historialPrestamos := [],
    multaAcumulada := 0, variante := .estudiante carrera semestre }

/-- Constructor `Profesor.__init__` (line 738). -/
def Profesor.init (nombre identificacion email : String) (now : Int)
    (departamento tituloAcademico : String) : Usuario :=
  { nombre := nombre, identificacion := identificacion, email := email,
    fechaRegistro := now, librosPrestados := [], historialPrestamos := [],
    multaAcumulada := 0, variante := .profesor departamento tituloAcademico }

/-- Method `Usuario.puede_prestar` (lines 525-534). -/
def Usuario.puede_prestar (u : Usuario) : Bool :=
  let dentroLimite := decide (u.librosPrestados.length < u.limite_prestamos)
  let sinMultas := decide (u.multaAcumulada = 0)
  dentroLimite && sinMultas

/-- Method `Usuario.prestar_libro` (lines 536-563): Python's short-circuit
`if self.puede_prestar() and libro.prestar(self)` — the book-level loan is
only attempted when the user is eligible; on success the book is appended
to the held list and an open record is appended to the history. -/
def Usuario.prestar_libro (u : Usuario) (libro : Libro) (now : Int) :
    Bool × Usuario × Libro :=
  if u.puede_prestar then
    match libro.prestar u.identificacion now with
    | (true, libro') =>
      (true,
        { u with
          librosPrestados := u.librosPrestados ++ [libro.isbn],
          historialPrestamos := u.historialPrestamos ++
            [{ libroTitulo := libro.titulo, libroIsbn := libro.isbn,
               fechaPrestamo := now, tipoLibro := libro.obtener_tipo,
               devuelto := false, fechaDevolucion := none, diasRetraso := none }] },
        libro')
    | (false, libro') => (false, u, libro')
  else
    (false, u, libro)

/-- The loop `for prestamo in reversed(self._historial_prestamos)` of
`devolver_libro` (lines 580-585), expressed on the reversed list: close the
first record matching the ISBN that is still open, leave the rest alone. -/
def cerrarPrimerAbierto (isbn : String) (now diasRetraso : Int) :
    List PrestamoRegistro → List PrestamoRegistro
  | [] => []
  | r :: rs =>
    if r.libroIsbn = isbn ∧ r.devuelto = false then
      { r with devuelto := true, fechaDevolucion := some now,
               diasRetraso := some diasRetraso } :: rs
    else
      r :: cerrarPrimerAbierto isbn now diasRetraso rs

/-- Method `Usuario.devolver_libro` (lines 565-597): membership and removal
in `_libros_prestados` use Python object identity, modelled by ISBN
(`List.erase` removes the first occurrence, as `list.remove` does); the
fine is added to the balance only when there are late days. -/
def Usuario.devolver_libro (u : Usuario) (libro : Libro) (now : Int) :
    ℚ × Usuario × Libro :=
  if libro.isbn ∈ u.librosPrestados then
    match libro.devolver now with
    | ((diasRetraso, _), libro') =>
      let librosPrestados' := u.librosPrestados.erase libro.isbn
      let historial' :=
        (cerrarPrimerAbierto libro.isbn now diasRetraso
          u.historialPrestamos.reverse).reverse
      if diasRetraso > 0 then
        let multa := (diasRetraso : ℚ) * u.calcular_multa_por_dia
        (multa,
          { u with librosPrestados := librosPrestados',
                   historialPrestamos := historial',
                   multaAcumulada := u.multaAcumulada + multa },
          libro')
      else
        (0,
          { u with librosPrestados := librosPrestados',
                   historialPrestamos := historial' },
          libro')
  else
    (0, u, libro)

/-- Method `Usuario.pagar_multa` (lines 599-612): only a positive amount
changes the balance, which is floored at zero; the (possibly unchanged)
remaining balance is returned. -/
def Usuario.pagar_multa (u : Usuario) (cantidad : ℚ) : ℚ × Usuario :=
  if cantidad > 0 then
    let restante := max 0 (u.multaAcumulada - cantidad)
    (restante, { u with multaAcumulada := restante })
  else
    (u.multaAcumulada, u)

/-- The `CategoriaProducto` enum of the shop example (lines 38-43). -/
inductive CategoriaProducto where
  | electronica
  | ropa
  | hogar
  | libros
  | deportes
deriving DecidableEq

/-- The class `Producto` of the shop example (lines 63-170): the attributes
set by `Producto.__init__` (lines 72-85). -/
structure Producto where
  id : String
  nombre : String
  precioOriginal : ℚ
  precioActual : ℚ
  categoria : CategoriaProducto
  stock : Int
  descripcion : String
  ventasTotales : Int
deriving DecidableEq

/-- Class method `Producto._generar_id` (lines 87-90): formats
`PROD-{contador + 1:04d}`, zero-padded to four digits. -/
def Producto.generarId (contadorProductos : Nat) : String :=
  let s := toString (contadorProductos + 1)
  "PROD-" ++ String.mk (List.replicate (4 - s.length) '0') ++ s

/-- Static method `Producto.validar_precio` (lines 92-95). -/
def Producto.validar_precio (precio : ℚ) : Bool :=
  decide (precio > 0)

/-- Constructor `Producto.__init__` (lines 72-85): the class-level counter
`_contador_productos` is threaded explicitly and returned incremented; the
given price is assigned to both `_precio_original` and `_precio_actual`
as-is — no validation is performed (and `validar_precio` is not called). -/
def Producto.init (contadorProductos : Nat) (nombre : String) (precio : ℚ)
    (categoria : CategoriaProducto) (stock : Int) (descripcion : String) :
    Producto × Nat :=
  ({ id := Producto.generarId contadorProductos, nombre := nombre,
     precioOriginal := precio, precioActual := precio, categoria := categoria,
     stock := stock, descripcion := descripcion, ventasTotales := 0 },
   contadorProductos + 1)

/-- Method `Producto.aplicar_descuento` (lines 128-134): a percentage in
`[0, 100]` recomputes the current price from the original; any other
percentage leaves the state untouched and returns the current price. -/
def Producto.aplicar_descuento (p : Producto) (porcentaje : ℚ) :
    ℚ × Producto :=
  if 0 ≤ porcentaje ∧ porcentaje ≤ 100 then
    let descuento := p.precioOriginal * (porcentaje / 100)
    let precioActual' := p.precioOriginal - descuento
    (precioActual', { p with precioActual := precioActual' })
  else
    (p.precioActual, p)

/-- A minimal heap of Python list objects, used to express the aliasing
semantics of the `libros_prestados` property (lines 478-481), whose body is
`return self._libros_prestados.copy()`: a reference is an index, a cell
holds the list contents, `asignar` allocates a fresh cell. -/
structure AlmacenListas where
  siguiente : Nat
  celdas : Nat → List String

/-- Dereference a list object. -/
def AlmacenListas.leer (s : AlmacenListas) (r : Nat) : List String :=
  s.celdas r

/-- Allocate a fresh list object holding the given contents. -/
def AlmacenListas.asignar (s : AlmacenListas) (v : List String) :
    Nat × AlmacenListas :=
  (s.siguiente,
   { siguiente := s.siguiente + 1,
     celdas := fun i => if i = s.siguiente then v else s.celdas i })

/-- Mutate a list object in place (any Python mutation of the list is some
overwrite of its contents). -/
def AlmacenListas.escribir (s : AlmacenListas) (r : Nat) (v : List String) :
    AlmacenListas :=
  { siguiente := s.siguiente,
    celdas := fun i => if i = r then v else s.celdas i }

/-- Property getter `Usuario.libros_prestados` (lines 478-481) in the heap
model: `self._libros_prestados` is the cell `r`; the getter returns a copy,
i.e. a freshly allocated cell with the same contents. -/
def Usuario.libros_prestados (s : AlmacenListas) (r : Nat) :
    Nat × AlmacenListas :=
  s.asignar (s.leer r)

/-- A physical book currently on loan (loaned at time 3 to user `E1`),
used as concrete sample input. -/
def libroEj : Libro :=
  { titulo := "T", autor := "A", isbn := "I1", anioPublicacion := 2020,
    disponible := false, fechaPrestamo := some 3, usuarioActual := some "E1",
    variante := .fisico "Pasillo 1" "Bueno" 100 }

/-- A student currently holding `libroEj`, with the matching open history
record, used as concrete sample input. -/
def estudianteEj : Usuario :=
  { nombre := "Ana", identificacion := "E1", email := "ana@u.edu",
    fechaRegistro := 0, librosPrestados := ["I1"],
    historialPrestamos :=
      [{ libroTitulo := "T", libroIsbn := "I1", fechaPrestamo := 3,
         tipoLibro := "Libro Físico", devuelto := false,
         fechaDevolucion := none, diasRetraso := none }],
    multaAcumulada := 0, variante := .estudiante "Ing" 1 }

/-- C4: a loan succeeds exactly when the item is available — on success it
sets the item unavailable, records the loan time and the holder, and
returns `true`; a loan of an item already on loan returns `false` and
leaves borrower and timestamp unchanged from the first loan. -/
theorem C4_prestar_disponibilidad :
    (∀ (l : Libro) (usr : String) (now : Int), l.disponible = true →
      l.prestar usr now =
        (true, { l with disponible := false, fechaPrestamo := some now,
                        usuarioActual := some usr }))
    ∧ (∀ (l : Libro) (usr : String) (now : Int), l.disponible = false →
      l.prestar usr now = (false, l))
    ∧ (∀ (l : Libro) (u1 u2 : String) (t1 t2 : Int), l.disponible = true →
      (l.prestar u1 t1).2.prestar u2 t2 = (false, (l.prestar u1 t1).2)
        ∧ (l.prestar u1 t1).2.usuarioActual = some u1
        ∧ (l.prestar u1 t1).2.fechaPrestamo = some t1) := by
  refine ⟨?_, ?_, ?_⟩ <;> intros <;> simp_all [Libro.prestar]

/-- C4 witness at a concrete available book: loaning it back to `E1` at
time 3 reproduces exactly the on-loan state `libroEj`. -/
theorem C4_prestar_disponibilidad_testigo :
    Libro.prestar { libroEj with disponible := true } "E1" 3 = (true, libroEj) := by
  have h := C4_prestar_disponibilidad.1 { libroEj with disponible := true } "E1" 3 rfl
  simpa [libroEj] using h

/-- C1: returning an item on loan for exactly `n` whole time-units yields
`max 0 (n - allowed_duration)` late days together with the holder, and
clears the loan state; returning an item not on loan yields `(0, none)` as
a sentinel, without changing the item; the allowed duration is 14 for a
physical book and 7 for a digital one. -/
theorem C1_devolver_dias_retraso :
    (∀ (l : Libro) (t n : Int), l.disponible = false → l.fechaPrestamo = some t →
      l.devolver (t + n) =
        ((max 0 (n - l.calcular_dias_prestamo), l.usuarioActual),
         { l with disponible := true, fechaPrestamo := none,
                  usuarioActual := none }))
    ∧ (∀ (l : Libro) (now : Int), l.disponible = true →
      l.devolver now = ((0, none), l))
    ∧ (∀ (l : Libro) (ub ef : String) (np : Int),
      l.variante = .fisico ub ef np → l.calcular_dias_prestamo = 14)
    ∧ (∀ (l : Libro) (fo : String) (ta : ℚ) (url : String) (d : Nat),
      l.variante = .digital fo ta url d → l.calcular_dias_prestamo = 7) := by
  refine ⟨?_, ?_, ?_, ?_⟩
  · intro l t n hd hf
    simp [Libro.devolver, hd, hf]
  · intro l now hd
    simp [Libro.devolver, hd]
  · intro l ub ef np hv
    simp [Libro.calcular_dias_prestamo, hv]
  · intro l fo ta url d hv
    simp [Libro.calcular_dias_prestamo, hv]

/-- C1 witness: the sample physical book loaned at time 3 and returned
20 time-units later comes back with 6 late days and holder `E1`. -/
theorem C1_devolver_dias_retraso_testigo :
    Libro.devolver libroEj (3 + 20) =
      ((6, some "E1"),
       { libroEj with disponible := true, fechaPrestamo := none,
                      usuarioActual := none }) := by
  have h := C1_devolver_dias_retraso.1 libroEj 3 20 rfl rfl
  rw [h]
  decide

/-- Invariant of the book state: the loan timestamp and the holder
reference are set exactly when the availability flag is false (hence both
are set or both absent). -/
def LibroInv (l : Libro) : Prop :=
  l.fechaPrestamo.isSome = !l.disponible ∧ l.usuarioActual.isSome = !l.disponible

/-- C7: a freshly constructed book (physical or digital) is available with
no timestamp and no holder, and both `prestar` and `devolver` preserve the
invariant tying timestamp and holder to unavailability. -/
theorem C7_invariante_libro :
    (∀ titulo autor isbn anio ubicacion estadoFisico numeroPaginas,
      LibroInv (LibroFisico.init titulo autor isbn anio ubicacion estadoFisico
        numeroPaginas)
      ∧ (LibroFisico.init titulo autor isbn anio ubicacion estadoFisico
        numeroPaginas).disponible = true)
    ∧ (∀ titulo autor isbn anio formato tamano url,
      LibroInv (LibroDigital.init titulo autor isbn anio formato tamano url)
      ∧ (LibroDigital.init titulo autor isbn anio formato tamano url).disponible
        = true)
    ∧ (∀ (l : Libro) (usr : String) (now : Int), LibroInv l →
      LibroInv (l.prestar usr now).2)
    ∧ (∀ (l : Libro) (now : Int), LibroInv l →
      LibroInv (l.devolver now).2) := by
  refine ⟨?_, ?_, ?_, ?_⟩
  · intros
    exact ⟨⟨rfl, rfl⟩, rfl⟩
  · intros
    exact ⟨⟨rfl, rfl⟩, rfl⟩
  · intro l usr now h
    unfold Libro.prestar
    split <;> simp_all [LibroInv]
  · intro l now h
    unfold Libro.devolver
    split <;> simp_all [LibroInv]

/-- C7 witness: the constructors at concrete arguments and preservation
along a concrete loan of the sample book. -/
theorem C7_invariante_libro_testigo :
    LibroInv (LibroFisico.init "T" "A" "I1" 2020 "P1" "Bueno" 100)
    ∧ LibroInv (Libro.prestar
        (LibroFisico.init "T" "A" "I1" 2020 "P1" "Bueno" 100) "E1" 3).2
    ∧ LibroInv (Libro.devolver libroEj 23).2 :=
  ⟨(C7_invariante_libro.1 "T" "A" "I1" 2020 "P1" "Bueno" 100).1,
   C7_invariante_libro.2.2.1 (LibroFisico.init "T" "A" "I1" 2020 "P1" "Bueno" 100)
     "E1" 3 (C7_invariante_libro.1 "T" "A" "I1" 2020 "P1" "Bueno" 100).1,
   C7_invariante_libro.2.2.2 libroEj 23 (by constructor <;> rfl)⟩

/-- C5: borrowing eligibility holds iff the held count is strictly below
the variant's loan limit and the fine balance is exactly zero; any nonzero
balance blocks borrowing; the per-variant constants are 3 and 0.50 for a
student, 10 and 1.00 for a professor. -/
theorem C5_puede_prestar_iff :
    (∀ u : Usuario, u.puede_prestar = true ↔
      (u.librosPrestados.length < u.limite_prestamos ∧ u.multaAcumulada = 0))
    ∧ (∀ u : Usuario, u.multaAcumulada ≠ 0 → u.puede_prestar = false)
    ∧ (∀ (u : Usuario) (c : String) (s : Int), u.variante = .estudiante c s →
      u.limite_prestamos = 3 ∧ u.calcular_multa_por_dia = 1 / 2
        ∧ u.obtener_tipo_usuario = "Estudiante")
    ∧ (∀ (u : Usuario) (d ta : String), u.variante = .profesor d ta →
      u.limite_prestamos = 10 ∧ u.calcular_multa_por_dia = 1
        ∧ u.obtener_tipo_usuario = "Profesor") := by
  refine ⟨?_, ?_, ?_, ?_⟩
  · intro u
    simp [Usuario.puede_prestar]
  · intro u h
    simp [Usuario.puede_prestar, h]
  · intro u c s hv
    simp [Usuario.limite_prestamos, Usuario.calcular_multa_por_dia,
      Usuario.obtener_tipo_usuario, hv]
  · intro u d ta hv
    simp [Usuario.limite_prestamos, Usuario.calcular_multa_por_dia,
      Usuario.obtener_tipo_usuario, hv]

/-- C5 witness: the sample student holds one book of its limit 3 with zero
balance and may borrow; with a fine of 3 on the balance it may not. -/
theorem C5_puede_prestar_iff_testigo :
    estudianteEj.puede_prestar = true
    ∧ Usuario.puede_prestar { estudianteEj with multaAcumulada := 3 } = false
    ∧ estudianteEj.limite_prestamos = 3
    ∧ estudianteEj.calcular_multa_por_dia = 1 / 2 :=
  ⟨(C5_puede_prestar_iff.1 estudianteEj).2 (by decide),
   C5_puede_prestar_iff.2.1 { estudianteEj with multaAcumulada := 3 } (by decide),
   (C5_puede_prestar_iff.2.2.1 estudianteEj "Ing" 1 rfl).1,
   (C5_puede_prestar_iff.2.2.1 estudianteEj "Ing" 1 rfl).2.1⟩

/-- C6: only a positive payment changes the balance; a positive payment
`p` against balance `b` leaves `max 0 (b - p)`, so an overpayment yields
exactly zero; the call always returns the remaining balance. -/
theorem C6_pagar_multa :
    (∀ (u : Usuario) (p : ℚ), 0 < p →
      u.pagar_multa p =
        (max 0 (u.multaAcumulada - p),
         { u with multaAcumulada := max 0 (u.multaAcumulada - p) }))
    ∧ (∀ (u : Usuario) (p : ℚ), ¬ 0 < p →
      u.pagar_multa p = (u.multaAcumulada, u))
    ∧ (∀ (u : Usuario) (p : ℚ), 0 < p → u.multaAcumulada < p →
      (u.pagar_multa p).2.multaAcumulada = 0)
    ∧ (∀ (u : Usuario) (p : ℚ),
      (u.pagar_multa p).1 = (u.pagar_multa p).2.multaAcumulada) := by
  refine ⟨?_, ?_, ?_, ?_⟩
  · intro u p hp
    simp [Usuario.pagar_multa, hp]
  · intro u p hp
    simp [Usuario.pagar_multa, hp]
  · intro u p hp hlt
    simp [Usuario.pagar_multa, hp]
    linarith
  · intro u p
    unfold Usuario.pagar_multa
    split <;> rfl

/-- C6 witness: paying 5 against the balance 3 leaves exactly 0; paying 2
leaves 1; a non-positive payment changes nothing. -/
theorem C6_pagar_multa_testigo :
    Usuario.pagar_multa { estudianteEj with multaAcumulada := 3 } 5 =
      (0, { estudianteEj with multaAcumulada := 0 })
    ∧ (Usuario.pagar_multa { estudianteEj with multaAcumulada := 3 } 2).1 = 1
    ∧ Usuario.pagar_multa { estudianteEj with multaAcumulada := 3 } 0 =
      (3, { estudianteEj with multaAcumulada := 3 }) := by
  refine ⟨?_, ?_, ?_⟩
  · have h := C6_pagar_multa.1 { estudianteEj with multaAcumulada := 3 } 5
      (by norm_num)
    rw [h]
    norm_num
  · have h := C6_pagar_multa.1 { estudianteEj with multaAcumulada := 3 } 2
      (by norm_num)
    rw [h]
    norm_num
  · exact C6_pagar_multa.2.1 { estudianteEj with multaAcumulada := 3 } 0
      (by norm_num)

/-- C3: a borrow succeeds exactly when the borrower is eligible and the
item-level loan succeeds; eligibility is checked first, so an ineligible
borrow leaves both the borrower and the book untouched — in particular a
4th borrow by a student already holding 3 items fails without mutation. -/
theorem C3_prestar_libro_elegibilidad :
    (∀ (u : Usuario) (l : Libro) (now : Int),
      (u.prestar_libro l now).1 = true ↔
        (u.puede_prestar = true ∧ (l.prestar u.identificacion now).1 = true))
    ∧ (∀ (u : Usuario) (l : Libro) (now : Int), u.puede_prestar = false →
      u.prestar_libro l now = (false, u, l))
    ∧ (∀ (u : Usuario) (l : Libro) (now : Int) (c : String) (s : Int),
      u.variante = .estudiante c s → u.librosPrestados.length = 3 →
      u.prestar_libro l now = (false, u, l)) := by
  refine ⟨?_, ?_, ?_⟩
  · intro u l now
    unfold Usuario.prestar_libro
    split
    · split <;> simp_all
    · simp_all
  · intro u l now h
    simp [Usuario.prestar_libro, h]
  · intro u l now c s hv hlen
    have hp : u.puede_prestar = false := by
      simp [Usuario.puede_prestar, Usuario.limite_prestamos, hv, hlen]
    simp [Usuario.prestar_libro, hp]

/-- C3 witness: the sample student holding three books cannot borrow a
fourth available book — nothing changes and the call reports failure. -/
theorem C3_prestar_libro_elegibilidad_testigo :
    Usuario.prestar_libro
        { estudianteEj with librosPrestados := ["I1", "I2", "I3"] }
        { libroEj with disponible := true, isbn := "I4" } 5 =
      (false, { estudianteEj with librosPrestados := ["I1", "I2", "I3"] },
       { libroEj with disponible := true, isbn := "I4" }) :=
  C3_prestar_libro_elegibilidad.2.2
    { estudianteEj with librosPrestados := ["I1", "I2", "I3"] }
    { libroEj with disponible := true, isbn := "I4" } 5 "Ing" 1 rfl rfl

/-- Unfolding lemma for a return of a book that is on loan. -/
lemma devolver_en_prestamo (l : Libro) (t n : Int)
    (hd : l.disponible = false) (hf : l.fechaPrestamo = some t) :
    l.devolver (t + n) =
      ((max 0 (n - l.calcular_dias_prestamo), l.usuarioActual),
       { l with disponible := true, fechaPrestamo := none,
                usuarioActual := none }) := by
  simp [Libro.devolver, hd, hf]

/-- Records that do not match the scanned ISBN or are already closed are
passed over unchanged. -/
lemma cerrarPrimerAbierto_append (isbn : String) (now dias : Int)
    (l1 l2 : List PrestamoRegistro)
    (h : ∀ r ∈ l1, ¬(r.libroIsbn = isbn ∧ r.devuelto = false)) :
    cerrarPrimerAbierto isbn now dias (l1 ++ l2) =
      l1 ++ cerrarPrimerAbierto isbn now dias l2 := by
  induction l1 with
  | nil => rfl
  | cons a l ih =>
    simp only [List.cons_append, cerrarPrimerAbierto, List.append_eq]
    rw [if_neg (h a (by simp)), ih (fun r hr => h r (by simp [hr]))]

/-- The head is closed when it is the open record for the scanned ISBN. -/
lemma cerrarPrimerAbierto_cons (isbn : String) (now dias : Int)
    (r : PrestamoRegistro) (rs : List PrestamoRegistro)
    (h : r.libroIsbn = isbn ∧ r.devuelto = false) :
    cerrarPrimerAbierto isbn now dias (r :: rs) =
      { r with devuelto := true, fechaDevolucion := some now,
               diasRetraso := some dias } :: rs := by
  simp only [cerrarPrimerAbierto, if_pos h]

/-- The newest-first scan of the history closes exactly the most recent
open record for the ISBN: splitting the history as `pre ++ r :: post` with
`r` open for the ISBN and nothing open for it in the (newer) `post`, only
`r` is rewritten. -/
lemma historialCerrado (isbn : String) (now dias : Int)
    (pre post : List PrestamoRegistro) (r : PrestamoRegistro)
    (hr : r.libroIsbn = isbn ∧ r.devuelto = false)
    (hpost : ∀ r' ∈ post, ¬(r'.libroIsbn = isbn ∧ r'.devuelto = false)) :
    (cerrarPrimerAbierto isbn now dias ((pre ++ r :: post).reverse)).reverse =
      pre ++ { r with devuelto := true, fechaDevolucion := some now,
                      diasRetraso := some dias } :: post := by
  have h1 : (pre ++ r :: post).reverse = post.reverse ++ r :: pre.reverse := by
    simp
  rw [h1,
    cerrarPrimerAbierto_append isbn now dias post.reverse (r :: pre.reverse)
      (fun r' hr' => hpost r' (List.mem_reverse.mp hr')),
    cerrarPrimerAbierto_cons isbn now dias r pre.reverse hr]
  simp


/-- Full characterisation of `Usuario.devolver_libro` on a held book that
is on loan since time `t`, returned at `t + n`, with the history split at
its most recent open record for the book's ISBN. -/
lemma devolver_libro_spec (u : Usuario) (l : Libro) (t n : Int)
    (pre post : List PrestamoRegistro) (r : PrestamoRegistro)
    (hmem : l.isbn ∈ u.librosPrestados)
    (hd : l.disponible = false) (hf : l.fechaPrestamo = some t)
    (hhist : u.historialPrestamos = pre ++ r :: post)
    (hrisbn : r.libroIsbn = l.isbn) (hrdev : r.devuelto = false)
    (hpost : ∀ r' ∈ post, ¬(r'.libroIsbn = l.isbn ∧ r'.devuelto = false)) :
    (u.devolver_libro l (t + n)).1 =
        (if 0 < max 0 (n - l.calcular_dias_prestamo)
         then ((max 0 (n - l.calcular_dias_prestamo) : ℤ) : ℚ) *
           u.calcular_multa_por_dia
         else 0)
      ∧ (u.devolver_libro l (t + n)).2.1.librosPrestados =
          u.librosPrestados.erase l.isbn
      ∧ (u.devolver_libro l (t + n)).2.1.historialPrestamos =
          pre ++ { r with devuelto := true, fechaDevolucion := some (t + n),
                          diasRetraso :=
                            some (max 0 (n - l.calcular_dias_prestamo)) }
            :: post
      ∧ (u.devolver_libro l (t + n)).2.1.multaAcumulada =
          u.multaAcumulada + (u.devolver_libro l (t + n)).1
      ∧ (u.devolver_libro l (t + n)).2.2 =
          { l with disponible := true, fechaPrestamo := none,
                   usuarioActual := none } := by
  have hdev := devolver_en_prestamo l t n hd hf
  have hcierre := historialCerrado l.isbn (t + n)
    (max 0 (n - l.calcular_dias_prestamo)) pre post r ⟨hrisbn, hrdev⟩ hpost
  unfold Usuario.devolver_libro
  rw [if_pos hmem, hdev]
  simp only [gt_iff_lt]
  split_ifs with hdias <;>
    exact ⟨rfl, rfl, by rw [hhist]; exact hcierre, by simp, rfl⟩

/-- The open history record of the sample student. -/
def registroEj : PrestamoRegistro :=
  { libroTitulo := "T", libroIsbn := "I1", fechaPrestamo := 3,
    tipoLibro := "Libro Físico", devuelto := false,
    fechaDevolucion := none, diasRetraso := none }

/-- C2: returning a held item removes it from the held list, closes the
most recent open history record for its ISBN with the return time and the
late days, adds `late_days * per_day_rate` to the balance exactly when the
return is late (the returned fine being that amount, else zero), and clears
the book; returning an item not held is a no-op with zero fine; the sample
student returning the physical book after 20 time-units owes 6 late days,
a fine of 3.00, ends with balance 3.00, can no longer borrow, and is
cleared by paying 3.00. -/
theorem C2_devolver_libro_multa :
    (∀ (u : Usuario) (l : Libro) (t n : Int)
      (pre post : List PrestamoRegistro) (r : PrestamoRegistro),
      l.isbn ∈ u.librosPrestados →
      l.disponible = false → l.fechaPrestamo = some t →
      u.historialPrestamos = pre ++ r :: post →
      r.libroIsbn = l.isbn → r.devuelto = false →
      (∀ r' ∈ post, ¬(r'.libroIsbn = l.isbn ∧ r'.devuelto = false)) →
      (u.devolver_libro l (t + n)).1 =
          (if 0 < max 0 (n - l.calcular_dias_prestamo)
           then ((max 0 (n - l.calcular_dias_prestamo) : ℤ) : ℚ) *
             u.calcular_multa_por_dia
           else 0)
        ∧ (u.devolver_libro l (t + n)).2.1.librosPrestados =
            u.librosPrestados.erase l.isbn
        ∧ (u.devolver_libro l (t + n)).2.1.historialPrestamos =
            pre ++ { r with devuelto := true, fechaDevolucion := some (t + n),
                            diasRetraso :=
                              some (max 0 (n - l.calcular_dias_prestamo)) }
              :: post
        ∧ (u.devolver_libro l (t + n)).2.1.multaAcumulada =
            u.multaAcumulada + (u.devolver_libro l (t + n)).1
        ∧ (u.devolver_libro l (t + n)).2.2 =
            { l with disponible := true, fechaPrestamo := none,
                     usuarioActual := none })
    ∧ (∀ (u : Usuario) (l : Libro) (now : Int), l.isbn ∉ u.librosPrestados →
      u.devolver_libro l now = (0, u, l))
    ∧ ((Usuario.devolver_libro estudianteEj libroEj (3 + 20)).1 = 3
      ∧ (Usuario.devolver_libro estudianteEj libroEj (3 + 20)).2.1.librosPrestados
          = []
      ∧ (Usuario.devolver_libro estudianteEj libroEj (3 + 20)).2.1.historialPrestamos
          = [{ registroEj with devuelto := true, fechaDevolucion := some 23,
                               diasRetraso := some 6 }]
      ∧ (Usuario.devolver_libro estudianteEj libroEj (3 + 20)).2.1.multaAcumulada
          = 3
      ∧ (Usuario.devolver_libro estudianteEj libroEj (3 + 20)).2.1.puede_prestar
          = false
      ∧ (Usuario.pagar_multa
            (Usuario.devolver_libro estudianteEj libroEj (3 + 20)).2.1
            3).2.multaAcumulada = 0) := by
  refine ⟨devolver_libro_spec, ?_, ?_⟩
  · intro u l now hmem
    simp [Usuario.devolver_libro, hmem]
  · have h := devolver_libro_spec estudianteEj libroEj 3 20 [] [] registroEj
      (by decide) rfl rfl rfl rfl rfl (by simp)
    obtain ⟨h1, h2, h3, h4, h5⟩ := h
    have hdias : max 0 (20 - libroEj.calcular_dias_prestamo) = 6 := by
      simp [libroEj, Libro.calcular_dias_prestamo]
    have hA : (Usuario.devolver_libro estudianteEj libroEj (3 + 20)).1 = 3 := by
      rw [h1, hdias]
      norm_num [estudianteEj, Usuario.calcular_multa_por_dia]
    have hD : (Usuario.devolver_libro estudianteEj libroEj (3 + 20)).2.1.multaAcumulada
        = 3 := by
      rw [h4, hA]
      norm_num [estudianteEj]
    refine ⟨hA, ?_, ?_, hD, ?_, ?_⟩
    · rw [h2]
      simp [estudianteEj, libroEj, List.erase]
    · rw [h3, hdias]
      norm_num
    · have hD' := hD
      norm_num at hD'
      simp [Usuario.puede_prestar, hD']
    · have hD' := hD
      norm_num at hD'
      simp [Usuario.pagar_multa, hD']

/-- C2 witness: the general part of the theorem applied to the sample
student and book, with the history split at its single open record. -/
theorem C2_devolver_libro_multa_testigo :
    (Usuario.devolver_libro estudianteEj libroEj (3 + 20)).2.1.librosPrestados
        = estudianteEj.librosPrestados.erase libroEj.isbn
      ∧ (Usuario.devolver_libro estudianteEj libroEj (3 + 20)).2.2 =
          { libroEj with disponible := true, fechaPrestamo := none,
                         usuarioActual := none } := by
  have h := C2_devolver_libro_multa.1 estudianteEj libroEj 3 20 [] [] registroEj
    (by decide) rfl rfl rfl rfl rfl (by simp)
  exact ⟨h.2.1, h.2.2.2.2⟩

/-- Invariant of the borrower state: held count within the variant's limit
and non-negative fine balance. -/
def UsuarioInv (u : Usuario) : Prop :=
  u.librosPrestados.length ≤ u.limite_prestamos ∧ 0 ≤ u.multaAcumulada

/-- Both per-variant fine rates are positive. -/
lemma rate_pos (u : Usuario) : 0 < u.calcular_multa_por_dia := by
  cases hv : u.variante <;> simp [Usuario.calcular_multa_por_dia, hv]

/-- A borrow never changes the fine balance. -/
lemma multa_prestar_libro (u : Usuario) (l : Libro) (now : Int) :
    (u.prestar_libro l now).2.1.multaAcumulada = u.multaAcumulada := by
  unfold Usuario.prestar_libro
  by_cases hp : u.puede_prestar
  · rw [if_pos hp]
    rcases hlp : l.prestar u.identificacion now with ⟨b, l'⟩
    cases b <;> rfl
  · rw [if_neg hp]

/-- A borrow preserves the borrower invariant. -/
lemma inv_prestar_libro (u : Usuario) (l : Libro) (now : Int)
    (h : UsuarioInv u) : UsuarioInv (u.prestar_libro l now).2.1 := by
  unfold Usuario.prestar_libro
  by_cases hp : u.puede_prestar
  · rw [if_pos hp]
    rcases hlp : l.prestar u.identificacion now with ⟨b, l'⟩
    cases b
    · exact h
    · have hlt : u.librosPrestados.length < u.limite_prestamos := by
        have hp' := hp
        simp [Usuario.puede_prestar] at hp'
        exact hp'.1
      refine ⟨?_, h.2⟩
      show (u.librosPrestados ++ [l.isbn]).length ≤ u.limite_prestamos
      simp only [List.length_append, List.length_singleton]
      omega
  · rw [if_neg hp]
    exact h

/-- Exact effect of a return on the fine balance: it grows by
`late_days * rate` when the book was held and came back late, and is
unchanged otherwise. -/
lemma multa_devolver_libro (u : Usuario) (l : Libro) (now : Int) :
    (u.devolver_libro l now).2.1.multaAcumulada =
      u.multaAcumulada +
        (if l.isbn ∈ u.librosPrestados ∧ 0 < ((l.devolver now).1).1
         then ((((l.devolver now).1).1 : ℤ) : ℚ) * u.calcular_multa_por_dia
         else 0) := by
  unfold Usuario.devolver_libro
  by_cases hmem : l.isbn ∈ u.librosPrestados
  · rw [if_pos hmem]
    rcases hdev : l.devolver now with ⟨⟨dias, usr⟩, l'⟩
    by_cases hdias : dias > 0
    · simp [hdev, hmem, hdias]
    · simp [hdev, hmem, hdias]
  · simp [hmem]

/-- A return preserves the borrower invariant. -/
lemma inv_devolver_libro (u : Usuario) (l : Libro) (now : Int)
    (h : UsuarioInv u) : UsuarioInv (u.devolver_libro l now).2.1 := by
  obtain ⟨h1, h2⟩ := h
  have hlen : (u.librosPrestados.erase l.isbn).length ≤ u.limite_prestamos :=
    le_trans (List.Sublist.length_le (List.erase_sublist _ _)) h1
  unfold UsuarioInv Usuario.devolver_libro
  by_cases hmem : l.isbn ∈ u.librosPrestados
  · rw [if_pos hmem]
    rcases hdev : l.devolver now with ⟨⟨dias, usr⟩, l'⟩
    by_cases hdias : dias > 0
    · simp only [hdev, hdias, if_true, gt_iff_lt, ite_true]
      refine ⟨hlen, ?_⟩
      have hmul : (0:ℚ) ≤ (dias : ℚ) * u.calcular_multa_por_dia :=
        mul_nonneg (by exact_mod_cast hdias.le) (rate_pos u).le
      show (0:ℚ) ≤ u.multaAcumulada + (dias : ℚ) * u.calcular_multa_por_dia
      linarith
    · simp only [hdev, hdias, gt_iff_lt, ite_false]
      exact ⟨hlen, h2⟩
  · rw [if_neg hmem]
    exact ⟨h1, h2⟩

/-- A return never lowers the fine balance. -/
lemma multa_devolver_libro_mono (u : Usuario) (l : Libro) (now : Int) :
    u.multaAcumulada ≤ (u.devolver_libro l now).2.1.multaAcumulada := by
  rw [multa_devolver_libro]
  have : (0:ℚ) ≤
      (if l.isbn ∈ u.librosPrestados ∧ 0 < ((l.devolver now).1).1
       then ((((l.devolver now).1).1 : ℤ) : ℚ) * u.calcular_multa_por_dia
       else 0) := by
    split
    · rename_i hc
      exact mul_nonneg (by exact_mod_cast hc.2.le) (rate_pos u).le
    · exact le_refl 0
  linarith

/-- A payment preserves the borrower invariant. -/
lemma inv_pagar_multa (u : Usuario) (c : ℚ) (h : UsuarioInv u) :
    UsuarioInv (u.pagar_multa c).2 := by
  obtain ⟨h1, h2⟩ := h
  unfold UsuarioInv Usuario.pagar_multa
  split
  · exact ⟨h1, le_max_left 0 _⟩
  · exact ⟨h1, h2⟩

/-- A payment never raises a non-negative fine balance. -/
lemma multa_pagar_multa_le (u : Usuario) (c : ℚ)
    (h2 : 0 ≤ u.multaAcumulada) :
    (u.pagar_multa c).2.multaAcumulada ≤ u.multaAcumulada := by
  unfold Usuario.pagar_multa
  split
  · rename_i hc
    show max 0 (u.multaAcumulada - c) ≤ u.multaAcumulada
    exact max_le h2 (by linarith)
  · exact le_refl _

/-- The borrower-level operations of the source, as a sequence alphabet. -/
inductive OperacionUsuario where
  | prestar (libro : Libro) (now : Int)
  | devolver (libro : Libro) (now : Int)
  | pagar (cantidad : ℚ)

/-- Apply one borrower-level operation to the borrower state. -/
def Usuario.aplicar (u : Usuario) : OperacionUsuario → Usuario
  | .prestar l now => (u.prestar_libro l now).2.1
  | .devolver l now => (u.devolver_libro l now).2.1
  | .pagar c => (u.pagar_multa c).2

/-- C8: any sequence of borrows, returns and payments preserves the
invariant (held count within the variant limit, non-negative balance);
a borrow leaves the balance unchanged, a return raises it by exactly
`late_days * rate` when late (never lowering it), and a payment never
raises it — so the balance increases only through a late return and
decreases only through an explicit payment. -/
theorem C8_invariante_usuario :
    (∀ (ops : List OperacionUsuario) (u : Usuario), UsuarioInv u →
      UsuarioInv (ops.foldl Usuario.aplicar u))
    ∧ (∀ (u : Usuario) (l : Libro) (now : Int),
      (u.prestar_libro l now).2.1.multaAcumulada = u.multaAcumulada)
    ∧ (∀ (u : Usuario) (l : Libro) (now : Int),
      (u.devolver_libro l now).2.1.multaAcumulada =
        u.multaAcumulada +
          (if l.isbn ∈ u.librosPrestados ∧ 0 < ((l.devolver now).1).1
           then ((((l.devolver now).1).1 : ℤ) : ℚ) * u.calcular_multa_por_dia
           else 0))
    ∧ (∀ (u : Usuario) (l : Libro) (now : Int),
      u.multaAcumulada ≤ (u.devolver_libro l now).2.1.multaAcumulada)
    ∧ (∀ (u : Usuario) (c : ℚ), 0 ≤ u.multaAcumulada →
      (u.pagar_multa c).2.multaAcumulada ≤ u.multaAcumulada) := by
  refine ⟨?_, multa_prestar_libro, multa_devolver_libro,
    multa_devolver_libro_mono, multa_pagar_multa_le⟩
  intro ops
  induction ops with
  | nil => exact fun u h => h
  | cons op ops ih =>
    intro u h
    refine ih (u.aplicar op) ?_
    cases op with
    | prestar l now => exact inv_prestar_libro u l now h
    | devolver l now => exact inv_devolver_libro u l now h
    | pagar c => exact inv_pagar_multa u c h

/-- C8 witness: the invariant survives a concrete late return followed by
the payment clearing it, and a concrete payment does not raise the
balance. -/
theorem C8_invariante_usuario_testigo :
    UsuarioInv
      ([OperacionUsuario.devolver libroEj 23,
        OperacionUsuario.pagar 3].foldl Usuario.aplicar estudianteEj)
    ∧ (Usuario.pagar_multa estudianteEj 1).2.multaAcumulada ≤
        estudianteEj.multaAcumulada :=
  ⟨C8_invariante_usuario.1
      [OperacionUsuario.devolver libroEj 23, OperacionUsuario.pagar 3]
      estudianteEj ⟨by decide, by norm_num [estudianteEj]⟩,
   C8_invariante_usuario.2.2.2.2 estudianteEj 1
      (by norm_num [estudianteEj])⟩

/-- C9 counterexample: a product constructed with the negative price -5 is
neither clamped nor rejected — the constructor stores -5 unchanged in both
the original and the current price, even though `validar_precio` would
flag it (the constructor never calls it). -/
theorem C9_contraejemplo :
    (Producto.init 0 "Gadget" (-5) CategoriaProducto.electronica 10 "").1.precioActual
        = -5
    ∧ (Producto.init 0 "Gadget" (-5) CategoriaProducto.electronica 10 "").1.precioOriginal
        = -5
    ∧ Producto.validar_precio (-5) = false := by
  refine ⟨rfl, rfl, ?_⟩
  simp [Producto.validar_precio]

/-- C9 (amended): a discount percentage outside `[0, 100]` leaves the
current price unchanged and returns that prior value; a construction
price, negative or not, is stored as-is in both price fields — the static
price validator exists but is not invoked by the constructor, so negative
prices are neither clamped nor rejected. -/
theorem C9_descuento_y_precio :
    (∀ (p : Producto) (porcentaje : ℚ), porcentaje < 0 ∨ 100 < porcentaje →
      p.aplicar_descuento porcentaje = (p.precioActual, p))
    ∧ (∀ (contador : Nat) (nombre : String) (precio : ℚ)
        (categoria : CategoriaProducto) (stock : Int) (descripcion : String),
      (Producto.init contador nombre precio categoria stock
          descripcion).1.precioActual = precio
      ∧ (Producto.init contador nombre precio categoria stock
          descripcion).1.precioOriginal = precio)
    ∧ (∀ precio : ℚ, Producto.validar_precio precio = true ↔ 0 < precio) := by
  refine ⟨?_, ?_, ?_⟩
  · intro p porcentaje hfuera
    unfold Producto.aplicar_descuento
    rw [if_neg]
    rcases hfuera with h | h
    · exact fun hc => absurd hc.1 (by linarith)
    · exact fun hc => absurd hc.2 (by linarith)
  · intro contador nombre precio categoria stock descripcion
    exact ⟨rfl, rfl⟩
  · intro precio
    simp [Producto.validar_precio]

/-- C9 witness: a 150 percent discount on a concretely built product is
refused — the state and the returned price stay at the constructed value. -/
theorem C9_descuento_y_precio_testigo :
    Producto.aplicar_descuento
        (Producto.init 0 "Libro" 40 CategoriaProducto.libros 5 "").1 150 =
      ((Producto.init 0 "Libro" 40 CategoriaProducto.libros 5 "").1.precioActual,
       (Producto.init 0 "Libro" 40 CategoriaProducto.libros 5 "").1) :=
  C9_descuento_y_precio.1
    (Producto.init 0 "Libro" 40 CategoriaProducto.libros 5 "").1 150
    (Or.inr (by norm_num))

/-- C10: the `libros_prestados` getter returns a copy — a fresh list
object distinct from the internal one, holding the same contents; any
overwrite of the returned object leaves the internal contents, and hence
`puede_prestar` over them and every later operation, unchanged. -/
theorem C10_libros_prestados_copia :
    ∀ (s : AlmacenListas) (r : Nat), r < s.siguiente →
      ((Usuario.libros_prestados s r).1 ≠ r
      ∧ (Usuario.libros_prestados s r).2.leer (Usuario.libros_prestados s r).1
          = s.leer r
      ∧ ∀ (v : List String),
        ((Usuario.libros_prestados s r).2.escribir
            (Usuario.libros_prestados s r).1 v).leer r = s.leer r
        ∧ ∀ (u : Usuario),
          Usuario.puede_prestar
              { u with librosPrestados :=
                  ((Usuario.libros_prestados s r).2.escribir
                    (Usuario.libros_prestados s r).1 v).leer r } =
            Usuario.puede_prestar { u with librosPrestados := s.leer r }) := by
  intro s r hr
  have hne : r ≠ s.siguiente := by omega
  have hleer : ∀ v : List String,
      ((Usuario.libros_prestados s r).2.escribir
        (Usuario.libros_prestados s r).1 v).leer r = s.leer r := by
    intro v
    simp [Usuario.libros_prestados, AlmacenListas.asignar,
      AlmacenListas.escribir, AlmacenListas.leer, hne]
  refine ⟨by simpa [Usuario.libros_prestados, AlmacenListas.asignar] using
      hne.symm, ?_, ?_⟩
  · simp [Usuario.libros_prestados, AlmacenListas.asignar, AlmacenListas.leer]
  · intro v
    refine ⟨hleer v, fun u => ?_⟩
    rw [hleer v]

/-- A one-cell heap whose cell 0 holds the sample held list. -/
def almacenEj : AlmacenListas :=
  { siguiente := 1, celdas := fun i => if i = 0 then ["I1"] else [] }

/-- C10 witness: in the concrete one-cell heap, the getter's fresh object
differs from the internal one and overwriting it leaves the internal list
readable unchanged. -/
theorem C10_libros_prestados_copia_testigo :
    (Usuario.libros_prestados almacenEj 0).1 ≠ 0
    ∧ ((Usuario.libros_prestados almacenEj 0).2.escribir
        (Usuario.libros_prestados almacenEj 0).1 []).leer 0 =
      almacenEj.leer 0 :=
  ⟨(C10_libros_prestados_copia almacenEj 0 (by norm_num [almacenEj])).1,
   ((C10_libros_prestados_copia almacenEj 0
      (by norm_num [almacenEj])).2.2 []).1⟩
